import Mathlib

/-!
Shallow embedding of `tools/python/xen/xend/XendAPI.py`: the response
envelope constructors, the request-guard decorators, the session login
handler, and the declarative API-surface construction pass performed by
`XendAPI.__init__`, together with theorems settling the specification
claims about them.

External collaborators (the node/domain registries and the auth/session
manager, which live outside this source file) are modelled as explicit
state records carrying the predicates the guards consult.
-/

/-- Python values as far as this surface inspects them: every guard tests
`type(ref) == type(str())`, so the embedding distinguishes strings from
non-string values. -/
inductive PyVal where
  | str : String → PyVal
  | int : Int → PyVal
  deriving DecidableEq, Repr

/-- Whether a Python value is of string type (`type(v) == type(str())`). -/
def PyVal.isStr : PyVal → Bool
  | .str _ => true
  | _ => false

/-- The underlying string of a string-typed Python value. -/
def PyVal.asStr : PyVal → String
  | .str s => s
  | _ => ""

/-- The wire envelope: a Python dict with a `"Status"` key and, when
present, a `"Value"` or `"ErrorDescription"` key. -/
structure XenResponse where
  Status : String
  Value : Option PyVal
  ErrorDescription : Option String
  deriving DecidableEq, Repr

/-- Modelled from the spec: the `TODO` error code from `XendAPIConstants`
(that module is not in the source tree; codes are opaque distinct strings). -/
def XEND_ERROR_TODO : String := "TODO"

/-- Modelled from the spec: the session-invalid error code from
`XendAPIConstants`. -/
def XEND_ERROR_SESSION_INVALID : String := "SESSION_INVALID"

/-- Modelled from the spec: the host-invalid error code from
`XendAPIConstants`. -/
def XEND_ERROR_HOST_INVALID : String := "HOST_INVALID"

/-- Modelled from the spec: the host-cpu-invalid error code from
`XendAPIConstants`. -/
def XEND_ERROR_HOST_CPU_INVALID : String := "HOST_CPU_INVALID"

/-- Modelled from the spec: the vm-invalid error code from
`XendAPIConstants`. -/
def XEND_ERROR_VM_INVALID : String := "VM_INVALID"

/-- Modelled from the spec: the vbd-invalid error code from
`XendAPIConstants`. -/
def XEND_ERROR_VBD_INVALID : String := "VBD_INVALID"

/-- Modelled from the spec: the vif-invalid error code from
`XendAPIConstants`. -/
def XEND_ERROR_VIF_INVALID : String := "VIF_INVALID"

/-- Modelled from the spec: the authentication-failed error code from
`XendAPIConstants`. -/
def XEND_ERROR_AUTHENTICATION_FAILED : String := "AUTHENTICATION_FAILED"

/-- Modelled from the spec: the unsupported-operation error code from
`XendAPIConstants`. -/
def XEND_ERROR_UNSUPPORTED : String := "UNSUPPORTED"

/-- `xen_api_success(value)` returns `{"Status": "Success", "Value": value}`. -/
def xen_api_success (value : PyVal) : XenResponse :=
  ⟨"Success", some value, none⟩

/-- `xen_api_success_void()` returns success with an empty-string value. -/
def xen_api_success_void : XenResponse :=
  xen_api_success (.str "")

/-- `xen_api_error(error)` returns `{"Status": "Error", "ErrorDescription": error}`. -/
def xen_api_error (error : String) : XenResponse :=
  ⟨"Error", none, some error⟩

/-- `xen_api_todo()` returns `{"Status": "Error", "ErrorDescription": XEND_ERROR_TODO}`. -/
def xen_api_todo : XenResponse :=
  ⟨"Error", none, some XEND_ERROR_TODO⟩

/-- Modelled from the spec: the node registry (`XendNode`, an external
collaborator): the host/cpu existence predicates the guards consult and the
cpu-uuid lookup used by the hand-written `host_cpu_get_uuid` handler. -/
structure XendNodeState where
  uuid : String
  validHosts : List String
  validCpus : List String
  cpuUuids : List (String × String)
  deriving DecidableEq, Repr

/-- `XendNode.is_valid_host`: existence of a host reference in the node registry. -/
def XendNodeState.is_valid_host (n : XendNodeState) (r : String) : Bool :=
  n.validHosts.contains r

/-- `XendNode.is_valid_cpu`: existence of a host-cpu reference in the node registry. -/
def XendNodeState.is_valid_cpu (n : XendNodeState) (r : String) : Bool :=
  n.validCpus.contains r

/-- `XendNode.get_host_cpu_uuid`: the registry's uuid lookup for a cpu reference. -/
def XendNodeState.get_host_cpu_uuid (n : XendNodeState) (r : String) : String :=
  (n.cpuUuids.lookup r).getD ""

/-- Modelled from the spec: the domain registry (`XendDomain`, an external
collaborator): the vm existence predicate and the device existence
predicate keyed by device kind, as consulted by the guards. -/
structure XendDomainState where
  validVms : List String
  validDevs : List (String × String)
  deriving DecidableEq, Repr

/-- `XendDomain.is_valid_vm`: existence of a vm reference in the domain registry. -/
def XendDomainState.is_valid_vm (d : XendDomainState) (r : String) : Bool :=
  d.validVms.contains r

/-- `XendDomain.is_valid_dev`: existence of a device reference of the given
kind in the domain registry. -/
def XendDomainState.is_valid_dev (d : XendDomainState) (kind r : String) : Bool :=
  d.validDevs.contains (kind, r)

/-- Modelled from the spec: the auth/session manager collaborator
(`XendAuthSessions`): a store mapping session tokens to bound users. -/
structure AuthSessions where
  sessions : List (String × String)
  deriving DecidableEq, Repr

/-- `get_user(session)`: the user bound to a session token, if any. -/
def AuthSessions.get_user (a : AuthSessions) (token : String) : Option String :=
  a.sessions.lookup token

/-- Modelled from the spec: the session-validity check that the
`session_required` guard relies on — the token must resolve to an active
session bound to a user. -/
def AuthSessions.is_session_valid (a : AuthSessions) (session : PyVal) : Bool :=
  match session with
  | .str t => (a.sessions.lookup t).isSome
  | _ => false

/-- A bound API method after dropping `self`: it receives the session
token, the first positional argument (the instance reference for instance
operations), and the remaining positional arguments (`*args`). -/
abbrev Handler : Type := PyVal → PyVal → List PyVal → XenResponse

/-- `valid_host`: decorator verifying that `host_ref` is a string known to
the node registry before calling the method; otherwise it answers the
`Failure` envelope carrying the host-invalid code. -/
def valid_host (xennode : XendNodeState) (func : Handler) : Handler :=
  fun session host_ref args =>
    if host_ref.isStr && xennode.is_valid_host host_ref.asStr then
      func session host_ref args
    else
      ⟨"Failure", none, some XEND_ERROR_HOST_INVALID⟩

/-- `valid_host_cpu`: decorator verifying that `host_cpu_ref` is a string
known to the node registry before calling the method. -/
def valid_host_cpu (xennode : XendNodeState) (func : Handler) : Handler :=
  fun session host_cpu_ref args =>
    if host_cpu_ref.isStr && xennode.is_valid_cpu host_cpu_ref.asStr then
      func session host_cpu_ref args
    else
      ⟨"Failure", none, some XEND_ERROR_HOST_CPU_INVALID⟩

/-- `valid_vm`: decorator verifying that `vm_ref` is a string known to the
domain registry before calling the method. -/
def valid_vm (xendom : XendDomainState) (func : Handler) : Handler :=
  fun session vm_ref args =>
    if vm_ref.isStr && xendom.is_valid_vm vm_ref.asStr then
      func session vm_ref args
    else
      ⟨"Failure", none, some XEND_ERROR_VM_INVALID⟩

/-- `valid_vbd`: decorator verifying that `vbd_ref` is a string known to
the domain registry under device kind `"vbd"` before calling the method. -/
def valid_vbd (xendom : XendDomainState) (func : Handler) : Handler :=
  fun session vbd_ref args =>
    if vbd_ref.isStr && xendom.is_valid_dev "vbd" vbd_ref.asStr then
      func session vbd_ref args
    else
      ⟨"Failure", none, some XEND_ERROR_VBD_INVALID⟩

/-- `valid_vif`: decorator verifying that `vif_ref` is a string known to
the domain registry under device kind `"vif"` before calling the method. -/
def valid_vif (xendom : XendDomainState) (func : Handler) : Handler :=
  fun session vif_ref args =>
    if vif_ref.isStr && xendom.is_valid_dev "vif" vif_ref.asStr then
      func session vif_ref args
    else
      ⟨"Failure", none, some XEND_ERROR_VIF_INVALID⟩

/-- Modelled from the spec: the `session_required` decorator (imported from
`XendAuthSessions`, which is not in the source tree): the session token
must resolve to an active session, otherwise it short-circuits with the
session-invalid code in the guards' `Failure` envelope shape, without
invoking the wrapped method. -/
def session_required (auth : AuthSessions) (func : Handler) : Handler :=
  fun session ref args =>
    if auth.is_session_valid session then
      func session ref args
    else
      ⟨"Failure", none, some XEND_ERROR_SESSION_INVALID⟩

/-- `session_login_with_password(username, password)`: delegates to the
auth collaborator; a raised `XendError` is modelled as the `Except.error`
branch of the collaborator function. -/
def session_login_with_password
    (auth_login : String → String → Except String String)
    (username password : String) : XenResponse :=
  match auth_login username password with
  | Except.ok session => xen_api_success (.str session)
  | Except.error _ => xen_api_error XEND_ERROR_AUTHENTICATION_FAILED

/-- The hand-written `host_cpu_get_uuid` handler as defined in the class
body: it looks the cpu's uuid up in the node registry. -/
def host_cpu_get_uuid (xennode : XendNodeState) : Handler :=
  fun _session host_cpu_ref _args =>
    xen_api_success (.str (xennode.get_host_cpu_uuid host_cpu_ref.asStr))

/-- The names of the guard decorators listed in the `classes` table of
`XendAPI.__init__`. -/
inductive GuardName where
  | valid_host : GuardName
  | valid_host_cpu : GuardName
  | valid_vm : GuardName
  | valid_vbd : GuardName
  | valid_vif : GuardName
  | session_required : GuardName
  deriving DecidableEq, Repr

/-- A class-attribute value of `XendAPI` as the composition pass sees it:
either one of the hand-written methods (identified by its attribute name),
the cheat identity lambda `lambda s, sess, obj_ref: xen_api_success(obj_ref)`,
or a method wrapped by one guard decorator. -/
inductive HandlerExpr where
  | base : String → HandlerExpr
  | cheat : HandlerExpr
  | guarded : GuardName → HandlerExpr → HandlerExpr
  deriving DecidableEq, Repr

/-- The outermost-first list of guards wrapped around a handler. -/
def guardChain : HandlerExpr → List GuardName
  | .guarded g h => g :: guardChain h
  | _ => []

/-- The mutable attribute table of the `XendAPI` class object, as read and
written by `getattr`/`setattr` during `__init__`: an association list where
the most recent binding of a name shadows the older ones. -/
abbrev Env : Type := List (String × HandlerExpr)

/-- `setattr(XendAPI, name, h)`: the new binding shadows any older one. -/
def envSet (e : Env) (name : String) (h : HandlerExpr) : Env :=
  (name, h) :: e

/-- `getattr(XendAPI, name)`: the most recent binding of the name. -/
def envGet (e : Env) (name : String) : Option HandlerExpr :=
  e.lookup name

/-- The `Session` entry of the `classes` dict: validator tuple
`(session_required,)`. -/
def clsSession : String × List GuardName := ("Session", [.session_required])

/-- The `Host` entry of the `classes` dict: validator tuple
`(valid_host, session_required)`. -/
def clsHost : String × List GuardName := ("Host", [.valid_host, .session_required])

/-- The `Host_CPU` entry of the `classes` dict: validator tuple
`(valid_host_cpu, session_required)`. -/
def clsHostCpu : String × List GuardName :=
  ("Host_CPU", [.valid_host_cpu, .session_required])

/-- The `VM` entry of the `classes` dict: validator tuple
`(valid_vm, session_required)`. -/
def clsVM : String × List GuardName := ("VM", [.valid_vm, .session_required])

/-- The `VBD` entry of the `classes` dict: validator tuple
`(valid_vbd, session_required)`. -/
def clsVBD : String × List GuardName := ("VBD", [.valid_vbd, .session_required])

/-- The `VIF` entry of the `classes` dict: validator tuple
`(valid_vif, session_required)`. -/
def clsVIF : String × List GuardName := ("VIF", [.valid_vif, .session_required])

/-- The `classes` dict of `XendAPI.__init__`: each declared class paired
with its validator tuple, in declared order. -/
def classes : List (String × List GuardName) :=
  [clsSession, clsHost, clsHostCpu, clsVM, clsVBD, clsVIF]

/-- `Base_attr_ro`. -/
def Base_attr_ro : List String := ["uuid"]

/-- `Base_attr_rw`. -/
def Base_attr_rw : List String := []

/-- `Base_methods`. -/
def Base_methods : List String := ["destroy", "to_XML", "get_record"]

/-- `Base_funcs`. -/
def Base_funcs : List String := ["create", "get_by_uuid", "get_all"]

/-- `Session_attr_ro`. -/
def Session_attr_ro : List String := ["this_host", "this_user"]

/-- `Session_methods`. -/
def Session_methods : List String := ["logout"]

/-- `Host_attr_ro`. -/
def Host_attr_ro : List String :=
  ["software_version", "resident_VMs", "host_CPUs"]

/-- `Host_attr_rw`. -/
def Host_attr_rw : List String := ["name_label", "name_description"]

/-- `Host_methods`. -/
def Host_methods : List String := ["disable", "enable", "reboot", "shutdown"]

/-- `Host_funcs`. -/
def Host_funcs : List String := ["get_by_label"]

/-- `Host_CPU_attr_ro`. -/
def Host_CPU_attr_ro : List String :=
  ["host", "number", "features", "utilisation"]

/-- `Network_attr_ro` (class `Network` is declared but absent from the
`classes` dict, so the pass never touches it). -/
def Network_attr_ro : List String := ["VIFs"]

/-- `Network_attr_rw`. -/
def Network_attr_rw : List String :=
  ["name_label", "name_description", "NIC", "VLAN", "default_gateway",
   "default_netmask"]

/-- `VM_attr_ro`. -/
def VM_attr_ro : List String :=
  ["power_state", "resident_on", "memory_actual", "memory_static_max",
   "memory_static_min", "VCPUs_number", "VCPUs_utilisation",
   "VCPUs_features_required", "VCPUs_can_use", "VIFs", "VBDs",
   "TPM_instance", "TPM_backend", "PCI_bus", "tools_version"]

/-- `VM_attr_rw` (note the source's `VCPUS_features_force_off` spelling;
lowercasing makes it resolve all the same). -/
def VM_attr_rw : List String :=
  ["name_label", "name_description", "user_version", "is_a_template",
   "memory_dynamic_max", "memory_dynamic_min", "VCPUs_policy",
   "VCPUs_params", "VCPUs_features_force_on", "VCPUS_features_force_off",
   "actions_after_shutdown", "actions_after_reboot",
   "actions_after_suspend", "actions_after_crash", "bios_boot",
   "platform_std_VGA", "platform_serial", "platform_localtime",
   "platform_clock_offset", "platform_enable_audio", "builder",
   "boot_method", "kernel_kernel", "kernel_initrd", "kernel_args",
   "grub_cmdline", "other_config"]

/-- `VM_methods`. -/
def VM_methods : List String :=
  ["clone", "start", "pause", "unpause", "clean_shutdown", "clean_reboot",
   "hard_shutdown", "hard_reboot", "suspend", "resume"]

/-- `VM_funcs`. -/
def VM_funcs : List String := ["get_by_label"]

/-- `VBD_attr_ro`. -/
def VBD_attr_ro : List String :=
  ["image", "IO_bandwidth_incoming_kbs", "IO_bandwidth_outgoing_kbs"]

/-- `VBD_attr_rw`. -/
def VBD_attr_rw : List String := ["VM", "VDI", "device", "mode", "driver"]

/-- `VIF_attr_ro`. -/
def VIF_attr_ro : List String :=
  ["network_read_kbs", "network_write_kbs", "IO_bandwidth_incoming_kbs",
   "IO_bandwidth_outgoing_kbs"]

/-- `VIF_attr_rw`. -/
def VIF_attr_rw : List String :=
  ["name", "type", "device", "network", "VM", "MAC", "MTU"]

/-- `getattr(self, cls + "_attr_ro", [])`. -/
def attr_ro_of : String → List String
  | "Session" => Session_attr_ro
  | "Host" => Host_attr_ro
  | "Host_CPU" => Host_CPU_attr_ro
  | "VM" => VM_attr_ro
  | "VBD" => VBD_attr_ro
  | "VIF" => VIF_attr_ro
  | _ => []

/-- `getattr(self, cls + "_attr_rw", [])`. -/
def attr_rw_of : String → List String
  | "Host" => Host_attr_rw
  | "VM" => VM_attr_rw
  | "VBD" => VBD_attr_rw
  | "VIF" => VIF_attr_rw
  | _ => []

/-- `getattr(self, cls + "_methods", [])`. -/
def methods_of : String → List String
  | "Session" => Session_methods
  | "Host" => Host_methods
  | "VM" => VM_methods
  | _ => []

/-- `getattr(self, cls + "_funcs", [])` (`Session_funcs` is commented out
in the source, so `Session` falls back to the empty default too). -/
def funcs_of : String → List String
  | "Host" => Host_funcs
  | "VM" => VM_funcs
  | _ => []

/-- The attribute names of every hand-written API method defined in the
body of class `XendAPI`, in source order. -/
def definedNames : List String :=
  ["session_login_with_password", "session_logout", "session_destroy",
   "session_get_record", "session_to_xml", "session_get_this_host",
   "session_get_this_user",
   "host_get_name_label", "host_set_name_label",
   "host_get_name_description", "host_set_name_description",
   "host_get_software_version", "host_get_resident_vms",
   "host_get_host_cpus", "host_destroy", "host_disable", "host_enable",
   "host_reboot", "host_shutdown", "host_get_record", "host_get_all",
   "host_create",
   "host_cpu_get_uuid", "host_cpu_get_host", "host_cpu_get_features",
   "host_cpu_get_utilisation", "host_cpu_get_number", "host_cpu_destroy",
   "host_cpu_get_record", "host_cpu_to_xml", "host_cpu_get_all",
   "host_cpu_create",
   "vm_get_power_state", "vm_get_resident_on", "vm_get_memory_actual",
   "vm_get_memory_static_max", "vm_get_memory_static_min",
   "vm_get_vcpus_number", "vm_get_vcpus_utilisation",
   "vm_get_vcpus_features_required", "vm_get_vcpus_can_use",
   "vm_get_vifs", "vm_get_vbds", "vm_get_tpm_instance",
   "vm_get_tpm_backend", "vm_get_pci_bus", "vm_get_tools_version",
   "vm_get_name_label", "vm_get_name_description", "vm_get_user_version",
   "vm_get_is_a_template", "vm_get_memory_dynamic_max",
   "vm_get_memory_dynamic_min", "vm_get_vcpus_policy",
   "vm_get_vcpus_params", "vm_get_vcpus_features_force_on",
   "vm_get_vcpus_features_force_off", "vm_get_actions_after_shutdown",
   "vm_get_actions_after_reboot", "vm_get_actions_after_suspend",
   "vm_get_actions_after_crash", "vm_get_bios_boot",
   "vm_get_platform_std_vga", "vm_get_platform_serial",
   "vm_get_platform_localtime", "vm_get_platform_clock_offset",
   "vm_get_platform_enable_audio", "vm_get_builder",
   "vm_get_boot_method", "vm_get_kernel_kernel", "vm_get_kernel_initrd",
   "vm_get_kernel_args", "vm_get_grub_cmdline", "vm_get_other_config",
   "vm_set_name_label", "vm_set_name_description", "vm_set_user_version",
   "vm_set_is_a_template", "vm_set_memory_dynamic_max",
   "vm_set_memory_dynamic_min", "vm_set_vcpus_policy",
   "vm_set_vcpus_params", "vm_set_vcpus_features_force_on",
   "vm_set_vcpus_features_force_off", "vm_set_actions_after_shutdown",
   "vm_set_actions_after_reboot", "vm_set_actions_after_suspend",
   "vm_set_actions_after_crash", "vm_set_bios_boot",
   "vm_set_platform_std_vga", "vm_set_platform_serial",
   "vm_set_platform_localtime", "vm_set_platform_clock_offset",
   "vm_set_platform_enable_audio", "vm_set_builder",
   "vm_set_boot_method", "vm_set_kernel_kernel", "vm_set_kernel_initrd",
   "vm_set_kernel_args", "vm_set_grub_cmdline", "vm_set_other_config",
   "vm_get_all", "vm_get_by_label", "vm_create", "vm_to_xml",
   "vm_get_record", "vm_clean_reboot", "vm_clean_shutdown", "vm_clone",
   "vm_destroy", "vm_hard_reboot", "vm_hard_shutdown", "vm_pause",
   "vm_resume", "vm_start", "vm_suspend", "vm_unpause",
   "vbd_get_record", "vbd_create", "vbd_get_vm", "vbd_get_vdi",
   "vbd_get_device", "vbd_get_mode", "vbd_get_driver",
   "vif_create"]

/-- The attribute table of class `XendAPI` before `__init__` runs: exactly
the hand-written methods, each standing for itself. -/
def initialEnv : Env :=
  definedNames.map (fun n => (n, .base n))

/-- Python's `str.lower()` on the ASCII identifiers this file constructs. -/
def lower (s : String) : String :=
  String.mk (s.data.map Char.toLower)

/-- The cheat-methods loop of `__init__`: for every declared class,
`setattr` the identity lambda under `<cls>_get_by_uuid` and
`<cls>_get_uuid`. -/
def cheatPass (e : Env) : Env :=
  classes.foldl
    (fun e c =>
      envSet (envSet e (lower c.1 ++ "_get_by_uuid") .cheat)
             (lower c.1 ++ "_get_uuid") .cheat)
    e

/-- `for validator in validators: h = validator(h)` — the fold of the
declared guard tuple over a handler, in declared order, so the last-listed
validator ends up outermost. -/
def wrapGuards (validators : List GuardName) (h : HandlerExpr) : HandlerExpr :=
  validators.foldl (fun acc v => .guarded v acc) h

/-- One `try`-block of the wrapping loops: resolve the attribute name; on
success wrap it with the validators and `setattr` the result back; an
`AttributeError` (the name does not resolve) is logged and skipped,
leaving the table unchanged. -/
def wrapOne (validators : List GuardName) (e : Env) (hname : String) : Env :=
  match envGet e hname with
  | some h => envSet e hname (wrapGuards validators h)
  | none => e

/-- One wrapping loop over a list of constructed attribute names. -/
def wrapList (validators : List GuardName) (names : List String) (e : Env) : Env :=
  names.foldl (wrapOne validators) e

/-- The attribute names the readable-attribute loop of a class constructs:
`lower(cls) + "_get_" + lower(attr)` for own ro, own rw and base ro
attributes. -/
def roNamesOf (cls : String) : List String :=
  (attr_ro_of cls ++ attr_rw_of cls ++ Base_attr_ro).map
    (fun a => lower cls ++ "_get_" ++ lower a)

/-- The attribute names the writable-attribute loop constructs:
`lower(cls) + "_set_" + lower(attr)`. -/
def rwNamesOf (cls : String) : List String :=
  (attr_rw_of cls ++ Base_attr_rw).map
    (fun a => lower cls ++ "_set_" ++ lower a)

/-- The attribute names the method loop constructs:
`lower(cls) + "_" + lower(method)`. -/
def methodNamesOf (cls : String) : List String :=
  (methods_of cls ++ Base_methods).map
    (fun m => lower cls ++ "_" ++ lower m)

/-- The attribute names the class-function loop constructs:
`lower(cls) + "_" + lower(func)`. -/
def funcNamesOf (cls : String) : List String :=
  (funcs_of cls ++ Base_funcs).map
    (fun f => lower cls ++ "_" ++ lower f)

/-- The body of `for cls, validators in classes.items()`: the four
wrapping loops for one class — readable attributes (own ro + rw + base
ro), writable attributes, methods, and class functions; class functions
are wrapped with `session_required` only. -/
def wrapClass (e : Env) (c : String × List GuardName) : Env :=
  wrapList [.session_required] (funcNamesOf c.1)
    (wrapList c.2 (methodNamesOf c.1)
      (wrapList c.2 (rwNamesOf c.1)
        (wrapList c.2 (roNamesOf c.1) e)))

/-- `XendAPI.__init__`: the cheat-methods loop followed by the wrapping
loops, as a transformation of the class attribute table. -/
def xendInit (e : Env) : Env :=
  classes.foldl wrapClass (cheatPass e)

/-- The class attribute table after constructing one `XendAPI`. -/
def finalEnv : Env := xendInit initialEnv

/-- The collaborator state a dispatched call runs against. -/
structure Collab where
  node : XendNodeState
  dom : XendDomainState
  auth : AuthSessions

/-- The guard decorator a `GuardName` stands for, applied against the
collaborator state. -/
def guardApply (c : Collab) : GuardName → Handler → Handler
  | .valid_host => valid_host c.node
  | .valid_host_cpu => valid_host_cpu c.node
  | .valid_vm => valid_vm c.dom
  | .valid_vbd => valid_vbd c.dom
  | .valid_vif => valid_vif c.dom
  | .session_required => session_required c.auth

/-- The behaviour of a composed class attribute: hand-written methods are
interpreted by `impl`, the cheat lambda returns `xen_api_success(obj_ref)`,
and guards wrap the inner behaviour. -/
def HandlerExpr.denote (c : Collab) (impl : String → Handler) :
    HandlerExpr → Handler
  | .base n => impl n
  | .cheat => fun _sess obj_ref _args => xen_api_success obj_ref
  | .guarded g h => guardApply c g (h.denote c impl)

/-- A throwaway handler used as a concrete wrapped method in witnesses. -/
def demoFunc : Handler := fun _session _ref _args => xen_api_todo

/-- A second throwaway handler, distinguishable from `demoFunc`. -/
def demoFunc2 : Handler := fun _session _ref _args => xen_api_success_void

/-- An interpretation of the hand-written methods; the cheat-based entries
evaluated below never consult it. -/
def noImpl : String → Handler := fun _name => demoFunc

/-- A node registry with no hosts and no cpus. -/
def demoNode : XendNodeState := ⟨"host-uuid-0", [], [], []⟩

/-- A node registry knowing host and cpu reference `"r"`. -/
def demoNodeOk : XendNodeState := ⟨"host-uuid-0", ["r"], ["r"], [("r", "u-r")]⟩

/-- A domain registry with no vms and no devices. -/
def demoDom : XendDomainState := ⟨[], []⟩

/-- A domain registry knowing vm `"r"` and devices `("vbd","r")` and
`("vif","r")`. -/
def demoDomOk : XendDomainState := ⟨["r"], [("vbd", "r"), ("vif", "r")]⟩

/-- An auth manager with no active sessions. -/
def demoAuth : AuthSessions := ⟨[]⟩

/-- An auth manager with one active session `"s"` bound to user `"u"`. -/
def demoAuthOk : AuthSessions := ⟨[("s", "u")]⟩

/-- Collaborators where nothing is valid. -/
def demoCollab : Collab := ⟨demoNode, demoDom, demoAuth⟩

/-- Collaborators where session `"s"` and reference `"r"` are valid
everywhere. -/
def demoCollabOk : Collab := ⟨demoNodeOk, demoDomOk, demoAuthOk⟩

/-- Collaborators for the Host_CPU scenario: session `"s"` is active, cpu
`"c1"` is registered with uuid `"u-c1"`, and cpu `"c0"` is absent from the
validity registry though its uuid `"u-c0"` is recorded. -/
def demoCollabCpu : Collab :=
  ⟨⟨"host-uuid-0", [], ["c1"], [("c0", "u-c0"), ("c1", "u-c1")]⟩, demoDom,
    demoAuthOk⟩

/-- A two-method attribute table used to witness the skip behaviour. -/
def demoEnv : Env := [("a", .base "a"), ("b", .base "b")]

/-- The authentication collaborator used in the login witness. -/
def demoAuthLogin : String → String → Except String String :=
  fun u p =>
    if u = "root" && p = "pw" then Except.ok "tok1" else Except.error "denied"

theorem envGet_cons_self (e : Env) (n : String) (h : HandlerExpr) :
    envGet ((n, h) :: e) n = some h := by
  simp [envGet, List.lookup]

theorem envGet_cons_ne (e : Env) (n m : String) (h : HandlerExpr)
    (hne : n ≠ m) : envGet ((m, h) :: e) n = envGet e n := by
  have hb : (n == m) = false := beq_eq_false_iff_ne.mpr hne
  simp [envGet, List.lookup, hb]

theorem wrapOne_get_ne (v : List GuardName) (e : Env) (n m : String)
    (hne : n ≠ m) : envGet (wrapOne v e m) n = envGet e n := by
  unfold wrapOne
  cases hm : envGet e m
  · rfl
  · exact envGet_cons_ne e n m _ hne

theorem wrapOne_get_self (v : List GuardName) (e : Env) (n : String) :
    envGet (wrapOne v e n) n = (envGet e n).map (wrapGuards v) := by
  unfold wrapOne
  cases hm : envGet e n
  · exact hm
  · exact envGet_cons_self e n _

theorem wrapOne_get_none_iff (v : List GuardName) (e : Env) (m n : String) :
    envGet (wrapOne v e m) n = none ↔ envGet e n = none := by
  by_cases hnm : n = m
  · subst hnm
    rw [wrapOne_get_self]
    cases envGet e n <;> simp
  · rw [wrapOne_get_ne v e n m hnm]

theorem wrapList_cons (v : List GuardName) (a : String) (as : List String)
    (e : Env) : wrapList v (a :: as) e = wrapList v as (wrapOne v e a) := rfl

theorem wrapList_get_not_mem (v : List GuardName) (ns : List String) :
    ∀ (e : Env) (n : String), n ∉ ns →
      envGet (wrapList v ns e) n = envGet e n := by
  induction ns with
  | nil => intro e n _; rfl
  | cons a as ih =>
    intro e n hn
    have h1 : n ≠ a := fun hh => hn (hh ▸ List.mem_cons_self a as)
    have h2 : n ∉ as := fun hh => hn (List.mem_cons_of_mem a hh)
    rw [wrapList_cons, ih _ _ h2, wrapOne_get_ne v e n a h1]

theorem wrapList_get_count_one (v : List GuardName) (ns : List String) :
    ∀ (e : Env) (n : String), ns.count n = 1 →
      envGet (wrapList v ns e) n = (envGet e n).map (wrapGuards v) := by
  induction ns with
  | nil => intro e n h; simp at h
  | cons a as ih =>
    intro e n h
    by_cases hna : n = a
    · subst hna
      rw [List.count_cons_self] at h
      have h0 : as.count n = 0 := by omega
      have hnot : n ∉ as := by
        intro hmem
        have := List.count_pos_iff.mpr hmem
        omega
      rw [wrapList_cons, wrapList_get_not_mem v as _ n hnot, wrapOne_get_self]
    · have h' : as.count n = 1 := by
        rw [List.count_cons_of_ne hna] at h; exact h
      rw [wrapList_cons, ih _ _ h', wrapOne_get_ne v e n a hna]

theorem wrapList_get_none_iff (v : List GuardName) (ns : List String) :
    ∀ (e : Env) (n : String),
      (envGet (wrapList v ns e) n = none ↔ envGet e n = none) := by
  induction ns with
  | nil => intro e n; exact Iff.rfl
  | cons a as ih =>
    intro e n
    rw [wrapList_cons, ih, wrapOne_get_none_iff]

theorem wrapList_append (v : List GuardName) (xs ys : List String) (e : Env) :
    wrapList v (xs ++ ys) e = wrapList v ys (wrapList v xs e) := by
  simp [wrapList, List.foldl_append]

theorem wrapClass_get_not_mem (e : Env) (c : String × List GuardName)
    (n : String) (hro : n ∉ roNamesOf c.1) (hrw : n ∉ rwNamesOf c.1)
    (hm : n ∉ methodNamesOf c.1) (hf : n ∉ funcNamesOf c.1) :
    envGet (wrapClass e c) n = envGet e n := by
  unfold wrapClass
  rw [wrapList_get_not_mem _ _ _ _ hf, wrapList_get_not_mem _ _ _ _ hm,
    wrapList_get_not_mem _ _ _ _ hrw, wrapList_get_not_mem _ _ _ _ hro]

/-- All attribute names the four wrapping loops of one class touch. -/
def touchedNamesOf (cls : String) : List String :=
  roNamesOf cls ++ rwNamesOf cls ++ methodNamesOf cls ++ funcNamesOf cls

theorem wrapClass_get_untouched (e : Env) (c : String × List GuardName)
    (n : String) (h : n ∉ touchedNamesOf c.1) :
    envGet (wrapClass e c) n = envGet e n := by
  unfold touchedNamesOf at h
  simp only [List.mem_append, not_or] at h
  exact wrapClass_get_not_mem e c n h.1.1.1 h.1.1.2 h.1.2 h.2

theorem wrapClass_get_ro (e : Env) (c : String × List GuardName) (n : String)
    (hro : (roNamesOf c.1).count n = 1) (hrw : n ∉ rwNamesOf c.1)
    (hm : n ∉ methodNamesOf c.1) (hf : n ∉ funcNamesOf c.1) :
    envGet (wrapClass e c) n = (envGet e n).map (wrapGuards c.2) := by
  unfold wrapClass
  rw [wrapList_get_not_mem _ _ _ _ hf, wrapList_get_not_mem _ _ _ _ hm,
    wrapList_get_not_mem _ _ _ _ hrw, wrapList_get_count_one _ _ _ _ hro]

theorem wrapClass_get_func (e : Env) (c : String × List GuardName) (n : String)
    (hf : (funcNamesOf c.1).count n = 1) (hro : n ∉ roNamesOf c.1)
    (hrw : n ∉ rwNamesOf c.1) (hm : n ∉ methodNamesOf c.1) :
    envGet (wrapClass e c) n =
      (envGet e n).map (wrapGuards [.session_required]) := by
  unfold wrapClass
  rw [wrapList_get_count_one _ _ _ _ hf, wrapList_get_not_mem _ _ _ _ hm,
    wrapList_get_not_mem _ _ _ _ hrw, wrapList_get_not_mem _ _ _ _ hro]

theorem wrapClass_get_none_iff (e : Env) (c : String × List GuardName)
    (n : String) : (envGet (wrapClass e c) n = none ↔ envGet e n = none) := by
  unfold wrapClass
  rw [wrapList_get_none_iff, wrapList_get_none_iff, wrapList_get_none_iff,
    wrapList_get_none_iff]

/-- The twelve attribute names the cheat-methods loop installs, newest
binding first. -/
def cheatNames : List String :=
  ["vif_get_uuid", "vif_get_by_uuid", "vbd_get_uuid", "vbd_get_by_uuid",
   "vm_get_uuid", "vm_get_by_uuid", "host_cpu_get_uuid",
   "host_cpu_get_by_uuid", "host_get_uuid", "host_get_by_uuid",
   "session_get_uuid", "session_get_by_uuid"]

theorem cheatPass_eq (e : Env) :
    cheatPass e = cheatNames.map (fun m => (m, HandlerExpr.cheat)) ++ e := by
  simp [cheatPass, classes, clsSession, clsHost, clsHostCpu, clsVM, clsVBD,
    clsVIF, envSet, lower, cheatNames, List.foldl_cons, List.foldl_nil]

theorem envGet_constMap_append_mem (ms : List String) (v : HandlerExpr)
    (e : Env) : ∀ n : String, n ∈ ms →
      envGet (ms.map (fun m => (m, v)) ++ e) n = some v := by
  induction ms with
  | nil => intro n h; cases h
  | cons a as ih =>
    intro n h
    show envGet ((a, v) :: (as.map (fun m => (m, v)) ++ e)) n = some v
    by_cases hna : n = a
    · subst hna; exact envGet_cons_self _ _ _
    · have h' : n ∈ as := by
        rcases List.mem_cons.mp h with h1 | h2
        · exact absurd h1 hna
        · exact h2
      rw [envGet_cons_ne _ _ _ _ hna]
      exact ih n h'

theorem envGet_constMap_append_not_mem (ms : List String) (v : HandlerExpr)
    (e : Env) : ∀ n : String, n ∉ ms →
      envGet (ms.map (fun m => (m, v)) ++ e) n = envGet e n := by
  induction ms with
  | nil => intro n _; rfl
  | cons a as ih =>
    intro n h
    show envGet ((a, v) :: (as.map (fun m => (m, v)) ++ e)) n = envGet e n
    have h1 : n ≠ a := fun hh => h (hh ▸ List.mem_cons_self a as)
    have h2 : n ∉ as := fun hh => h (List.mem_cons_of_mem a hh)
    rw [envGet_cons_ne _ _ _ _ h1]
    exact ih n h2

theorem envGet_keyMap_mem (ms : List String) (g : String → HandlerExpr) :
    ∀ n : String, n ∈ ms →
      envGet (ms.map (fun m => (m, g m))) n = some (g n) := by
  induction ms with
  | nil => intro n h; cases h
  | cons a as ih =>
    intro n h
    show envGet ((a, g a) :: as.map (fun m => (m, g m))) n = some (g n)
    by_cases hna : n = a
    · subst hna; exact envGet_cons_self _ _ _
    · have h' : n ∈ as := by
        rcases List.mem_cons.mp h with h1 | h2
        · exact absurd h1 hna
        · exact h2
      rw [envGet_cons_ne _ _ _ _ hna]
      exact ih n h'

theorem envGet_keyMap_not_mem (ms : List String) (g : String → HandlerExpr) :
    ∀ n : String, n ∉ ms →
      envGet (ms.map (fun m => (m, g m))) n = none := by
  induction ms with
  | nil => intro n _; rfl
  | cons a as ih =>
    intro n h
    show envGet ((a, g a) :: as.map (fun m => (m, g m))) n = none
    have h1 : n ≠ a := fun hh => h (hh ▸ List.mem_cons_self a as)
    have h2 : n ∉ as := fun hh => h (List.mem_cons_of_mem a hh)
    rw [envGet_cons_ne _ _ _ _ h1]
    exact ih n h2

theorem cheatPass_get_mem (e : Env) (n : String) (h : n ∈ cheatNames) :
    envGet (cheatPass e) n = some .cheat := by
  rw [cheatPass_eq]
  exact envGet_constMap_append_mem _ _ _ _ h

theorem cheatPass_get_not_mem (e : Env) (n : String) (h : n ∉ cheatNames) :
    envGet (cheatPass e) n = envGet e n := by
  rw [cheatPass_eq]
  exact envGet_constMap_append_not_mem _ _ _ _ h

theorem initialEnv_get_mem (n : String) (h : n ∈ definedNames) :
    envGet initialEnv n = some (.base n) := by
  unfold initialEnv
  exact envGet_keyMap_mem _ _ _ h

theorem initialEnv_get_not_mem (n : String) (h : n ∉ definedNames) :
    envGet initialEnv n = none := by
  unfold initialEnv
  exact envGet_keyMap_not_mem _ _ _ h

theorem xendInit_eq (e : Env) :
    xendInit e =
      wrapClass (wrapClass (wrapClass (wrapClass (wrapClass (wrapClass
        (cheatPass e) clsSession) clsHost) clsHostCpu) clsVM) clsVBD)
        clsVIF := by
  simp only [xendInit, classes, List.foldl_cons, List.foldl_nil]

theorem xendInit_get_untouched (e : Env) (n : String)
    (h1 : n ∉ touchedNamesOf "Session") (h2 : n ∉ touchedNamesOf "Host") (h3 : n ∉ touchedNamesOf "Host_CPU") (h4 : n ∉ touchedNamesOf "VM") (h5 : n ∉ touchedNamesOf "VBD") (h6 : n ∉ touchedNamesOf "VIF") :
    envGet (xendInit e) n = envGet (cheatPass e) n := by
  rw [xendInit_eq,
    wrapClass_get_untouched _ clsVIF _ h6, wrapClass_get_untouched _ clsVBD _ h5,
    wrapClass_get_untouched _ clsVM _ h4, wrapClass_get_untouched _ clsHostCpu _ h3,
    wrapClass_get_untouched _ clsHost _ h2, wrapClass_get_untouched _ clsSession _ h1]

theorem xendInit_get_ro_Session (e : Env) (n : String)
    (h2 : n ∉ touchedNamesOf "Host") (h3 : n ∉ touchedNamesOf "Host_CPU") (h4 : n ∉ touchedNamesOf "VM") (h5 : n ∉ touchedNamesOf "VBD") (h6 : n ∉ touchedNamesOf "VIF")
    (hro : (roNamesOf "Session").count n = 1)
    (hrw : n ∉ rwNamesOf "Session") (hm : n ∉ methodNamesOf "Session")
    (hf : n ∉ funcNamesOf "Session") :
    envGet (xendInit e) n = (envGet (cheatPass e) n).map (wrapGuards clsSession.2) := by
  rw [xendInit_eq,
    wrapClass_get_untouched _ clsVIF _ h6,
    wrapClass_get_untouched _ clsVBD _ h5,
    wrapClass_get_untouched _ clsVM _ h4,
    wrapClass_get_untouched _ clsHostCpu _ h3,
    wrapClass_get_untouched _ clsHost _ h2,
    wrapClass_get_ro _ clsSession _ hro hrw hm hf]

theorem xendInit_get_ro_Host (e : Env) (n : String)
    (h1 : n ∉ touchedNamesOf "Session") (h3 : n ∉ touchedNamesOf "Host_CPU") (h4 : n ∉ touchedNamesOf "VM") (h5 : n ∉ touchedNamesOf "VBD") (h6 : n ∉ touchedNamesOf "VIF")
    (hro : (roNamesOf "Host").count n = 1)
    (hrw : n ∉ rwNamesOf "Host") (hm : n ∉ methodNamesOf "Host")
    (hf : n ∉ funcNamesOf "Host") :
    envGet (xendInit e) n = (envGet (cheatPass e) n).map (wrapGuards clsHost.2) := by
  rw [xendInit_eq,
    wrapClass_get_untouched _ clsVIF _ h6,
    wrapClass_get_untouched _ clsVBD _ h5,
    wrapClass_get_untouched _ clsVM _ h4,
    wrapClass_get_untouched _ clsHostCpu _ h3,
    wrapClass_get_ro _ clsHost _ hro hrw hm hf,
    wrapClass_get_untouched _ clsSession _ h1]

theorem xendInit_get_ro_HostCpu (e : Env) (n : String)
    (h1 : n ∉ touchedNamesOf "Session") (h2 : n ∉ touchedNamesOf "Host") (h4 : n ∉ touchedNamesOf "VM") (h5 : n ∉ touchedNamesOf "VBD") (h6 : n ∉ touchedNamesOf "VIF")
    (hro : (roNamesOf "Host_CPU").count n = 1)
    (hrw : n ∉ rwNamesOf "Host_CPU") (hm : n ∉ methodNamesOf "Host_CPU")
    (hf : n ∉ funcNamesOf "Host_CPU") :
    envGet (xendInit e) n = (envGet (cheatPass e) n).map (wrapGuards clsHostCpu.2) := by
  rw [xendInit_eq,
    wrapClass_get_untouched _ clsVIF _ h6,
    wrapClass_get_untouched _ clsVBD _ h5,
    wrapClass_get_untouched _ clsVM _ h4,
    wrapClass_get_ro _ clsHostCpu _ hro hrw hm hf,
    wrapClass_get_untouched _ clsHost _ h2,
    wrapClass_get_untouched _ clsSession _ h1]

theorem xendInit_get_ro_VM (e : Env) (n : String)
    (h1 : n ∉ touchedNamesOf "Session") (h2 : n ∉ touchedNamesOf "Host") (h3 : n ∉ touchedNamesOf "Host_CPU") (h5 : n ∉ touchedNamesOf "VBD") (h6 : n ∉ touchedNamesOf "VIF")
    (hro : (roNamesOf "VM").count n = 1)
    (hrw : n ∉ rwNamesOf "VM") (hm : n ∉ methodNamesOf "VM")
    (hf : n ∉ funcNamesOf "VM") :
    envGet (xendInit e) n = (envGet (cheatPass e) n).map (wrapGuards clsVM.2) := by
  rw [xendInit_eq,
    wrapClass_get_untouched _ clsVIF _ h6,
    wrapClass_get_untouched _ clsVBD _ h5,
    wrapClass_get_ro _ clsVM _ hro hrw hm hf,
    wrapClass_get_untouched _ clsHostCpu _ h3,
    wrapClass_get_untouched _ clsHost _ h2,
    wrapClass_get_untouched _ clsSession _ h1]

theorem xendInit_get_ro_VBD (e : Env) (n : String)
    (h1 : n ∉ touchedNamesOf "Session") (h2 : n ∉ touchedNamesOf "Host") (h3 : n ∉ touchedNamesOf "Host_CPU") (h4 : n ∉ touchedNamesOf "VM") (h6 : n ∉ touchedNamesOf "VIF")
    (hro : (roNamesOf "VBD").count n = 1)
    (hrw : n ∉ rwNamesOf "VBD") (hm : n ∉ methodNamesOf "VBD")
    (hf : n ∉ funcNamesOf "VBD") :
    envGet (xendInit e) n = (envGet (cheatPass e) n).map (wrapGuards clsVBD.2) := by
  rw [xendInit_eq,
    wrapClass_get_untouched _ clsVIF _ h6,
    wrapClass_get_ro _ clsVBD _ hro hrw hm hf,
    wrapClass_get_untouched _ clsVM _ h4,
    wrapClass_get_untouched _ clsHostCpu _ h3,
    wrapClass_get_untouched _ clsHost _ h2,
    wrapClass_get_untouched _ clsSession _ h1]

theorem xendInit_get_ro_VIF (e : Env) (n : String)
    (h1 : n ∉ touchedNamesOf "Session") (h2 : n ∉ touchedNamesOf "Host") (h3 : n ∉ touchedNamesOf "Host_CPU") (h4 : n ∉ touchedNamesOf "VM") (h5 : n ∉ touchedNamesOf "VBD")
    (hro : (roNamesOf "VIF").count n = 1)
    (hrw : n ∉ rwNamesOf "VIF") (hm : n ∉ methodNamesOf "VIF")
    (hf : n ∉ funcNamesOf "VIF") :
    envGet (xendInit e) n = (envGet (cheatPass e) n).map (wrapGuards clsVIF.2) := by
  rw [xendInit_eq,
    wrapClass_get_ro _ clsVIF _ hro hrw hm hf,
    wrapClass_get_untouched _ clsVBD _ h5,
    wrapClass_get_untouched _ clsVM _ h4,
    wrapClass_get_untouched _ clsHostCpu _ h3,
    wrapClass_get_untouched _ clsHost _ h2,
    wrapClass_get_untouched _ clsSession _ h1]

theorem xendInit_get_func_Session (e : Env) (n : String)
    (h2 : n ∉ touchedNamesOf "Host") (h3 : n ∉ touchedNamesOf "Host_CPU") (h4 : n ∉ touchedNamesOf "VM") (h5 : n ∉ touchedNamesOf "VBD") (h6 : n ∉ touchedNamesOf "VIF")
    (hf : (funcNamesOf "Session").count n = 1)
    (hro : n ∉ roNamesOf "Session") (hrw : n ∉ rwNamesOf "Session")
    (hm : n ∉ methodNamesOf "Session") :
    envGet (xendInit e) n = (envGet (cheatPass e) n).map (wrapGuards [.session_required]) := by
  rw [xendInit_eq,
    wrapClass_get_untouched _ clsVIF _ h6,
    wrapClass_get_untouched _ clsVBD _ h5,
    wrapClass_get_untouched _ clsVM _ h4,
    wrapClass_get_untouched _ clsHostCpu _ h3,
    wrapClass_get_untouched _ clsHost _ h2,
    wrapClass_get_func _ clsSession _ hf hro hrw hm]

theorem xendInit_get_func_Host (e : Env) (n : String)
    (h1 : n ∉ touchedNamesOf "Session") (h3 : n ∉ touchedNamesOf "Host_CPU") (h4 : n ∉ touchedNamesOf "VM") (h5 : n ∉ touchedNamesOf "VBD") (h6 : n ∉ touchedNamesOf "VIF")
    (hf : (funcNamesOf "Host").count n = 1)
    (hro : n ∉ roNamesOf "Host") (hrw : n ∉ rwNamesOf "Host")
    (hm : n ∉ methodNamesOf "Host") :
    envGet (xendInit e) n = (envGet (cheatPass e) n).map (wrapGuards [.session_required]) := by
  rw [xendInit_eq,
    wrapClass_get_untouched _ clsVIF _ h6,
    wrapClass_get_untouched _ clsVBD _ h5,
    wrapClass_get_untouched _ clsVM _ h4,
    wrapClass_get_untouched _ clsHostCpu _ h3,
    wrapClass_get_func _ clsHost _ hf hro hrw hm,
    wrapClass_get_untouched _ clsSession _ h1]

theorem xendInit_get_func_HostCpu (e : Env) (n : String)
    (h1 : n ∉ touchedNamesOf "Session") (h2 : n ∉ touchedNamesOf "Host") (h4 : n ∉ touchedNamesOf "VM") (h5 : n ∉ touchedNamesOf "VBD") (h6 : n ∉ touchedNamesOf "VIF")
    (hf : (funcNamesOf "Host_CPU").count n = 1)
    (hro : n ∉ roNamesOf "Host_CPU") (hrw : n ∉ rwNamesOf "Host_CPU")
    (hm : n ∉ methodNamesOf "Host_CPU") :
    envGet (xendInit e) n = (envGet (cheatPass e) n).map (wrapGuards [.session_required]) := by
  rw [xendInit_eq,
    wrapClass_get_untouched _ clsVIF _ h6,
    wrapClass_get_untouched _ clsVBD _ h5,
    wrapClass_get_untouched _ clsVM _ h4,
    wrapClass_get_func _ clsHostCpu _ hf hro hrw hm,
    wrapClass_get_untouched _ clsHost _ h2,
    wrapClass_get_untouched _ clsSession _ h1]

theorem xendInit_get_func_VM (e : Env) (n : String)
    (h1 : n ∉ touchedNamesOf "Session") (h2 : n ∉ touchedNamesOf "Host") (h3 : n ∉ touchedNamesOf "Host_CPU") (h5 : n ∉ touchedNamesOf "VBD") (h6 : n ∉ touchedNamesOf "VIF")
    (hf : (funcNamesOf "VM").count n = 1)
    (hro : n ∉ roNamesOf "VM") (hrw : n ∉ rwNamesOf "VM")
    (hm : n ∉ methodNamesOf "VM") :
    envGet (xendInit e) n = (envGet (cheatPass e) n).map (wrapGuards [.session_required]) := by
  rw [xendInit_eq,
    wrapClass_get_untouched _ clsVIF _ h6,
    wrapClass_get_untouched _ clsVBD _ h5,
    wrapClass_get_func _ clsVM _ hf hro hrw hm,
    wrapClass_get_untouched _ clsHostCpu _ h3,
    wrapClass_get_untouched _ clsHost _ h2,
    wrapClass_get_untouched _ clsSession _ h1]

theorem xendInit_get_func_VBD (e : Env) (n : String)
    (h1 : n ∉ touchedNamesOf "Session") (h2 : n ∉ touchedNamesOf "Host") (h3 : n ∉ touchedNamesOf "Host_CPU") (h4 : n ∉ touchedNamesOf "VM") (h6 : n ∉ touchedNamesOf "VIF")
    (hf : (funcNamesOf "VBD").count n = 1)
    (hro : n ∉ roNamesOf "VBD") (hrw : n ∉ rwNamesOf "VBD")
    (hm : n ∉ methodNamesOf "VBD") :
    envGet (xendInit e) n = (envGet (cheatPass e) n).map (wrapGuards [.session_required]) := by
  rw [xendInit_eq,
    wrapClass_get_untouched _ clsVIF _ h6,
    wrapClass_get_func _ clsVBD _ hf hro hrw hm,
    wrapClass_get_untouched _ clsVM _ h4,
    wrapClass_get_untouched _ clsHostCpu _ h3,
    wrapClass_get_untouched _ clsHost _ h2,
    wrapClass_get_untouched _ clsSession _ h1]

theorem xendInit_get_func_VIF (e : Env) (n : String)
    (h1 : n ∉ touchedNamesOf "Session") (h2 : n ∉ touchedNamesOf "Host") (h3 : n ∉ touchedNamesOf "Host_CPU") (h4 : n ∉ touchedNamesOf "VM") (h5 : n ∉ touchedNamesOf "VBD")
    (hf : (funcNamesOf "VIF").count n = 1)
    (hro : n ∉ roNamesOf "VIF") (hrw : n ∉ rwNamesOf "VIF")
    (hm : n ∉ methodNamesOf "VIF") :
    envGet (xendInit e) n = (envGet (cheatPass e) n).map (wrapGuards [.session_required]) := by
  rw [xendInit_eq,
    wrapClass_get_func _ clsVIF _ hf hro hrw hm,
    wrapClass_get_untouched _ clsVBD _ h5,
    wrapClass_get_untouched _ clsVM _ h4,
    wrapClass_get_untouched _ clsHostCpu _ h3,
    wrapClass_get_untouched _ clsHost _ h2,
    wrapClass_get_untouched _ clsSession _ h1]

/-- C7: the response constructors satisfy: `xen_api_success value` is the
`Success` envelope carrying `value`; `xen_api_success_void` equals
`xen_api_success ""` and its value field is present and empty;
`xen_api_error code` is the `Error` envelope carrying `code`; and
`xen_api_todo` equals `xen_api_error XEND_ERROR_TODO`, an error-status
envelope with the TODO code. -/
theorem claim7_response_constructors :
    (∀ v : PyVal, xen_api_success v = ⟨"Success", some v, none⟩) ∧
    xen_api_success_void = xen_api_success (.str "") ∧
    xen_api_success_void.Value = some (.str "") ∧
    (∀ c : String, xen_api_error c = ⟨"Error", none, some c⟩) ∧
    xen_api_todo = xen_api_error XEND_ERROR_TODO ∧
    xen_api_todo.Status = "Error" :=
  ⟨fun _ => rfl, rfl, rfl, fun _ => rfl, rfl, rfl⟩

/-- C5: for every reference guard (host, host-cpu, vm, vbd, vif), a call
whose reference argument is not of string type or is absent from the
corresponding registry returns the envelope whose status is the literal
`"Failure"` (not `"Error"`) carrying the matching invalid code — and it
does so for every wrapped handler, which is therefore never invoked. -/
theorem claim5_reference_guard_rejection (node : XendNodeState)
    (dom : XendDomainState) (func : Handler) (session ref : PyVal)
    (args : List PyVal) :
    ((ref.isStr && node.is_valid_host ref.asStr) = false →
      valid_host node func session ref args =
        ⟨"Failure", none, some XEND_ERROR_HOST_INVALID⟩) ∧
    ((ref.isStr && node.is_valid_cpu ref.asStr) = false →
      valid_host_cpu node func session ref args =
        ⟨"Failure", none, some XEND_ERROR_HOST_CPU_INVALID⟩) ∧
    ((ref.isStr && dom.is_valid_vm ref.asStr) = false →
      valid_vm dom func session ref args =
        ⟨"Failure", none, some XEND_ERROR_VM_INVALID⟩) ∧
    ((ref.isStr && dom.is_valid_dev "vbd" ref.asStr) = false →
      valid_vbd dom func session ref args =
        ⟨"Failure", none, some XEND_ERROR_VBD_INVALID⟩) ∧
    ((ref.isStr && dom.is_valid_dev "vif" ref.asStr) = false →
      valid_vif dom func session ref args =
        ⟨"Failure", none, some XEND_ERROR_VIF_INVALID⟩) ∧
    (⟨"Failure", none, some XEND_ERROR_HOST_INVALID⟩ : XenResponse).Status ≠
      "Error" := by
  refine ⟨fun h => ?_, fun h => ?_, fun h => ?_, fun h => ?_, fun h => ?_,
    by decide⟩
  · simp [valid_host, h]
  · simp [valid_host_cpu, h]
  · simp [valid_vm, h]
  · simp [valid_vbd, h]
  · simp [valid_vif, h]

/-- C5 witness: the five guards each reject the non-string reference
`int 7` against empty registries with their `"Failure"` envelopes. -/
theorem claim5_witness :
    ((PyVal.int 7).isStr && demoNode.is_valid_host (PyVal.int 7).asStr)
        = false ∧
    valid_host demoNode demoFunc (.str "s") (.int 7) [] =
      ⟨"Failure", none, some XEND_ERROR_HOST_INVALID⟩ ∧
    valid_host_cpu demoNode demoFunc (.str "s") (.int 7) [] =
      ⟨"Failure", none, some XEND_ERROR_HOST_CPU_INVALID⟩ ∧
    valid_vm demoDom demoFunc (.str "s") (.int 7) [] =
      ⟨"Failure", none, some XEND_ERROR_VM_INVALID⟩ ∧
    valid_vbd demoDom demoFunc (.str "s") (.int 7) [] =
      ⟨"Failure", none, some XEND_ERROR_VBD_INVALID⟩ ∧
    valid_vif demoDom demoFunc (.str "s") (.int 7) [] =
      ⟨"Failure", none, some XEND_ERROR_VIF_INVALID⟩ :=
  ⟨by decide,
   (claim5_reference_guard_rejection demoNode demoDom demoFunc (.str "s")
      (.int 7) []).1 (by decide),
   (claim5_reference_guard_rejection demoNode demoDom demoFunc (.str "s")
      (.int 7) []).2.1 (by decide),
   (claim5_reference_guard_rejection demoNode demoDom demoFunc (.str "s")
      (.int 7) []).2.2.1 (by decide),
   (claim5_reference_guard_rejection demoNode demoDom demoFunc (.str "s")
      (.int 7) []).2.2.2.1 (by decide),
   (claim5_reference_guard_rejection demoNode demoDom demoFunc (.str "s")
      (.int 7) []).2.2.2.2.1 (by decide)⟩

/-- C6: every guard composes transparently: when its check passes it
returns exactly what the wrapped handler returns on the unchanged
arguments, and when its check fails its result does not depend on the
wrapped handler at all (the same envelope results for any two wrapped
handlers). -/
theorem claim6_guard_transparency (node : XendNodeState)
    (dom : XendDomainState) (auth : AuthSessions) (func func2 : Handler)
    (session ref : PyVal) (args : List PyVal) :
    ((ref.isStr && node.is_valid_host ref.asStr) = true →
      valid_host node func session ref args = func session ref args) ∧
    ((ref.isStr && node.is_valid_host ref.asStr) = false →
      valid_host node func session ref args =
        valid_host node func2 session ref args) ∧
    ((ref.isStr && node.is_valid_cpu ref.asStr) = true →
      valid_host_cpu node func session ref args = func session ref args) ∧
    ((ref.isStr && node.is_valid_cpu ref.asStr) = false →
      valid_host_cpu node func session ref args =
        valid_host_cpu node func2 session ref args) ∧
    ((ref.isStr && dom.is_valid_vm ref.asStr) = true →
      valid_vm dom func session ref args = func session ref args) ∧
    ((ref.isStr && dom.is_valid_vm ref.asStr) = false →
      valid_vm dom func session ref args =
        valid_vm dom func2 session ref args) ∧
    ((ref.isStr && dom.is_valid_dev "vbd" ref.asStr) = true →
      valid_vbd dom func session ref args = func session ref args) ∧
    ((ref.isStr && dom.is_valid_dev "vbd" ref.asStr) = false →
      valid_vbd dom func session ref args =
        valid_vbd dom func2 session ref args) ∧
    ((ref.isStr && dom.is_valid_dev "vif" ref.asStr) = true →
      valid_vif dom func session ref args = func session ref args) ∧
    ((ref.isStr && dom.is_valid_dev "vif" ref.asStr) = false →
      valid_vif dom func session ref args =
        valid_vif dom func2 session ref args) ∧
    (auth.is_session_valid session = true →
      session_required auth func session ref args = func session ref args) ∧
    (auth.is_session_valid session = false →
      session_required auth func session ref args =
        session_required auth func2 session ref args) := by
  refine ⟨fun h => ?_, fun h => ?_, fun h => ?_, fun h => ?_, fun h => ?_,
    fun h => ?_, fun h => ?_, fun h => ?_, fun h => ?_, fun h => ?_,
    fun h => ?_, fun h => ?_⟩
  · simp [valid_host, h]
  · simp [valid_host, h]
  · simp [valid_host_cpu, h]
  · simp [valid_host_cpu, h]
  · simp [valid_vm, h]
  · simp [valid_vm, h]
  · simp [valid_vbd, h]
  · simp [valid_vbd, h]
  · simp [valid_vif, h]
  · simp [valid_vif, h]
  · simp [session_required, h]
  · simp [session_required, h]

/-- C6 witness: with registries that know reference `"r"` and session
`"s"`, each guard forwards to the wrapped handler unchanged; with empty
registries and the non-string reference `int 7`, each guard's answer is
the same for two different wrapped handlers. -/
theorem claim6_witness :
    ((PyVal.str "r").isStr && demoNodeOk.is_valid_host
        (PyVal.str "r").asStr) = true ∧
    valid_host demoNodeOk demoFunc (.str "s") (.str "r") [] =
      demoFunc (.str "s") (.str "r") [] ∧
    session_required demoAuthOk demoFunc (.str "s") (.str "r") [] =
      demoFunc (.str "s") (.str "r") [] ∧
    valid_host demoNode demoFunc (.str "s") (.int 7) [] =
      valid_host demoNode demoFunc2 (.str "s") (.int 7) [] ∧
    session_required demoAuth demoFunc (.int 7) (.str "r") [] =
      session_required demoAuth demoFunc2 (.int 7) (.str "r") [] :=
  ⟨by decide,
   (claim6_guard_transparency demoNodeOk demoDomOk demoAuthOk demoFunc
      demoFunc2 (.str "s") (.str "r") []).1 (by decide),
   (claim6_guard_transparency demoNodeOk demoDomOk demoAuthOk demoFunc
      demoFunc2 (.str "s") (.str "r") []).2.2.2.2.2.2.2.2.2.2.1 (by decide),
   (claim6_guard_transparency demoNode demoDom demoAuth demoFunc demoFunc2
      (.str "s") (.int 7) []).2.1 (by decide),
   (claim6_guard_transparency demoNode demoDom demoAuth demoFunc demoFunc2
      (.int 7) (.str "r") []).2.2.2.2.2.2.2.2.2.2.2 (by decide)⟩

/-- C2: the guard tuple is folded over the handler in declared order, so
the last-listed guard is outermost; for the Host chain
`(valid_host, session_required)`, a call failing both the host check and
the session check answers the session-invalid response, which differs
from the host-invalid response. -/
theorem claim2_guard_fold_order (h : HandlerExpr) (col : Collab)
    (impl : String → Handler) (sess ref : PyVal) (args : List PyVal)
    (hsess : col.auth.is_session_valid sess = false)
    (_hhost : (ref.isStr && col.node.is_valid_host ref.asStr) = false) :
    wrapGuards [.valid_host, .session_required] h =
      .guarded .session_required (.guarded .valid_host h) ∧
    HandlerExpr.denote col impl
        (wrapGuards [.valid_host, .session_required] h) sess ref args =
      ⟨"Failure", none, some XEND_ERROR_SESSION_INVALID⟩ ∧
    (⟨"Failure", none, some XEND_ERROR_SESSION_INVALID⟩ : XenResponse) ≠
      ⟨"Failure", none, some XEND_ERROR_HOST_INVALID⟩ := by
  refine ⟨rfl, ?_, by decide⟩
  show HandlerExpr.denote col impl
      (.guarded .session_required (.guarded .valid_host h)) sess ref args = _
  simp [HandlerExpr.denote, guardApply, session_required, hsess]

/-- C2 witness: with no active session and an unknown host reference, the
Host-composed handler answers the session-invalid response. -/
theorem claim2_witness :
    demoCollab.auth.is_session_valid (PyVal.str "s") = false ∧
    ((PyVal.str "x").isStr &&
      demoCollab.node.is_valid_host (PyVal.str "x").asStr) = false ∧
    HandlerExpr.denote demoCollab noImpl
        (wrapGuards [.valid_host, .session_required] (.base "m"))
        (.str "s") (.str "x") [] =
      ⟨"Failure", none, some XEND_ERROR_SESSION_INVALID⟩ :=
  ⟨by decide, by decide,
   (claim2_guard_fold_order (.base "m") demoCollab noImpl (.str "s")
      (.str "x") [] (by decide) (by decide)).2.1⟩

/-- C3: a declared operation whose constructed handler name does not
resolve is skipped — the wrapping pass registers every remaining
operation exactly as if the unresolvable name were absent — and the pass
never adds or removes table entries, so no missing handler aborts
construction. -/
theorem claim3_missing_handler_skipped (v : List GuardName)
    (pre post : List String) (e : Env) (bad : String)
    (hmiss : envGet (wrapList v pre e) bad = none) :
    wrapList v (pre ++ bad :: post) e = wrapList v (pre ++ post) e ∧
    (∀ n : String,
      (envGet (wrapList v (pre ++ bad :: post) e) n = none ↔
        envGet e n = none)) := by
  constructor
  · rw [wrapList_append, wrapList_append, wrapList_cons]
    have hskip : wrapOne v (wrapList v pre e) bad = wrapList v pre e := by
      unfold wrapOne
      rw [hmiss]
    rw [hskip]
  · intro n
    rw [wrapList_get_none_iff]

/-- C3 witness: wrapping `["a", "zzz", "b"]` over a table that only
defines `a` and `b` equals wrapping `["a", "b"]`: the unresolvable name
`zzz` is skipped and `b` is still registered. -/
theorem claim3_witness :
    envGet (wrapList [.session_required] ["a"] demoEnv) "zzz" = none ∧
    wrapList [.session_required] (["a"] ++ "zzz" :: ["b"]) demoEnv =
      wrapList [.session_required] (["a"] ++ ["b"]) demoEnv :=
  ⟨by decide,
   (claim3_missing_handler_skipped [.session_required] ["a"] ["b"] demoEnv
      "zzz" (by decide)).1⟩

/-- C8: `session_login_with_password` answers `success token` when the
auth collaborator yields a token and `error AUTHENTICATION_FAILED` exactly
when it raises; and the composition pass leaves the attribute
`session_login_with_password` untouched, wrapping no guard around it. -/
theorem claim8_session_login
    (auth_login : String → String → Except String String)
    (username password token err : String) :
    (auth_login username password = Except.ok token →
      session_login_with_password auth_login username password =
        xen_api_success (.str token)) ∧
    (auth_login username password = Except.error err →
      session_login_with_password auth_login username password =
        xen_api_error XEND_ERROR_AUTHENTICATION_FAILED) ∧
    envGet finalEnv "session_login_with_password" =
      some (.base "session_login_with_password") := by
  refine ⟨fun h => ?_, fun h => ?_, ?_⟩
  · simp [session_login_with_password, h]
  · simp [session_login_with_password, h]
  · rw [finalEnv, xendInit_get_untouched initialEnv _ (by decide) (by decide)
      (by decide) (by decide) (by decide) (by decide),
      cheatPass_get_not_mem _ _ (by decide), initialEnv_get_mem _ (by decide)]

/-- C8 witness: a collaborator accepting only `("root", "pw")` makes login
succeed with its token there and fail with the authentication error on a
wrong password. -/
theorem claim8_witness :
    demoAuthLogin "root" "pw" = Except.ok "tok1" ∧
    session_login_with_password demoAuthLogin "root" "pw" =
      xen_api_success (.str "tok1") ∧
    demoAuthLogin "root" "xx" = Except.error "denied" ∧
    session_login_with_password demoAuthLogin "root" "xx" =
      xen_api_error XEND_ERROR_AUTHENTICATION_FAILED :=
  ⟨rfl,
   (claim8_session_login demoAuthLogin "root" "pw" "tok1" "e").1 rfl,
   rfl,
   (claim8_session_login demoAuthLogin "root" "xx" "t" "denied").2.1 rfl⟩

/-- C1 counterexample: after construction, Host's `get_uuid` attribute is
the identity lambda wrapped in the full Host guard chain, and invoking it
with no active session answers the session-invalid failure instead of
`success reference` — so the installed shortcut does evaluate guards. -/
theorem claim1_counterexample :
    envGet finalEnv "host_get_uuid" =
      some (.guarded .session_required (.guarded .valid_host .cheat)) ∧
    HandlerExpr.denote demoCollab noImpl
        (.guarded .session_required (.guarded .valid_host .cheat))
        (.str "s") (.str "ref0") [] =
      ⟨"Failure", none, some XEND_ERROR_SESSION_INVALID⟩ ∧
    (⟨"Failure", none, some XEND_ERROR_SESSION_INVALID⟩ : XenResponse) ≠
      xen_api_success (.str "ref0") := by
  refine ⟨?_, by decide, by decide⟩
  rw [finalEnv, xendInit_get_ro_Host initialEnv _ (by decide) (by decide) (by decide) (by decide) (by decide) (by decide) (by decide) (by decide) (by decide),
    cheatPass_get_mem _ _ (by decide)]
  rfl

/-- C1 amended: the cheat loop installs the identity lambdas unguarded,
but the wrapping loops then wrap every class's `get_uuid` attribute (via
the base read-only attribute `uuid`) in the class's full declared guard
chain and every class's `get_by_uuid` (via the base class functions) in
the session guard, so after construction both shortcuts sit behind those
guards. -/
theorem claim1_amended_identity_shortcuts :
    ∀ c ∈ classes,
      envGet finalEnv (lower c.1 ++ "_get_uuid") =
        some (wrapGuards c.2 .cheat) ∧
      envGet finalEnv (lower c.1 ++ "_get_by_uuid") =
        some (.guarded .session_required .cheat) := by
  intro c hc
  simp only [classes, List.mem_cons, List.not_mem_nil, or_false] at hc
  rcases hc with rfl | rfl | rfl | rfl | rfl | rfl
  · constructor
    · show envGet finalEnv "session_get_uuid" = some (wrapGuards clsSession.2 .cheat)
      rw [finalEnv, xendInit_get_ro_Session initialEnv _ (by decide) (by decide) (by decide) (by decide) (by decide) (by decide) (by decide) (by decide) (by decide),
        cheatPass_get_mem _ _ (by decide)]
      rfl
    · show envGet finalEnv "session_get_by_uuid" =
        some (.guarded .session_required .cheat)
      rw [finalEnv, xendInit_get_func_Session initialEnv _ (by decide) (by decide) (by decide) (by decide) (by decide) (by decide) (by decide) (by decide) (by decide),
        cheatPass_get_mem _ _ (by decide)]
      rfl
  · constructor
    · show envGet finalEnv "host_get_uuid" = some (wrapGuards clsHost.2 .cheat)
      rw [finalEnv, xendInit_get_ro_Host initialEnv _ (by decide) (by decide) (by decide) (by decide) (by decide) (by decide) (by decide) (by decide) (by decide),
        cheatPass_get_mem _ _ (by decide)]
      rfl
    · show envGet finalEnv "host_get_by_uuid" =
        some (.guarded .session_required .cheat)
      rw [finalEnv, xendInit_get_func_Host initialEnv _ (by decide) (by decide) (by decide) (by decide) (by decide) (by decide) (by decide) (by decide) (by decide),
        cheatPass_get_mem _ _ (by decide)]
      rfl
  · constructor
    · show envGet finalEnv "host_cpu_get_uuid" = some (wrapGuards clsHostCpu.2 .cheat)
      rw [finalEnv, xendInit_get_ro_HostCpu initialEnv _ (by decide) (by decide) (by decide) (by decide) (by decide) (by decide) (by decide) (by decide) (by decide),
        cheatPass_get_mem _ _ (by decide)]
      rfl
    · show envGet finalEnv "host_cpu_get_by_uuid" =
        some (.guarded .session_required .cheat)
      rw [finalEnv, xendInit_get_func_HostCpu initialEnv _ (by decide) (by decide) (by decide) (by decide) (by decide) (by decide) (by decide) (by decide) (by decide),
        cheatPass_get_mem _ _ (by decide)]
      rfl
  · constructor
    · show envGet finalEnv "vm_get_uuid" = some (wrapGuards clsVM.2 .cheat)
      rw [finalEnv, xendInit_get_ro_VM initialEnv _ (by decide) (by decide) (by decide) (by decide) (by decide) (by decide) (by decide) (by decide) (by decide),
        cheatPass_get_mem _ _ (by decide)]
      rfl
    · show envGet finalEnv "vm_get_by_uuid" =
        some (.guarded .session_required .cheat)
      rw [finalEnv, xendInit_get_func_VM initialEnv _ (by decide) (by decide) (by decide) (by decide) (by decide) (by decide) (by decide) (by decide) (by decide),
        cheatPass_get_mem _ _ (by decide)]
      rfl
  · constructor
    · show envGet finalEnv "vbd_get_uuid" = some (wrapGuards clsVBD.2 .cheat)
      rw [finalEnv, xendInit_get_ro_VBD initialEnv _ (by decide) (by decide) (by decide) (by decide) (by decide) (by decide) (by decide) (by decide) (by decide),
        cheatPass_get_mem _ _ (by decide)]
      rfl
    · show envGet finalEnv "vbd_get_by_uuid" =
        some (.guarded .session_required .cheat)
      rw [finalEnv, xendInit_get_func_VBD initialEnv _ (by decide) (by decide) (by decide) (by decide) (by decide) (by decide) (by decide) (by decide) (by decide),
        cheatPass_get_mem _ _ (by decide)]
      rfl
  · constructor
    · show envGet finalEnv "vif_get_uuid" = some (wrapGuards clsVIF.2 .cheat)
      rw [finalEnv, xendInit_get_ro_VIF initialEnv _ (by decide) (by decide) (by decide) (by decide) (by decide) (by decide) (by decide) (by decide) (by decide),
        cheatPass_get_mem _ _ (by decide)]
      rfl
    · show envGet finalEnv "vif_get_by_uuid" =
        some (.guarded .session_required .cheat)
      rw [finalEnv, xendInit_get_func_VIF initialEnv _ (by decide) (by decide) (by decide) (by decide) (by decide) (by decide) (by decide) (by decide) (by decide),
        cheatPass_get_mem _ _ (by decide)]
      rfl

/-- C1 amended witness: the Host instance of the amended statement. -/
theorem claim1_amended_witness :
    clsHost ∈ classes ∧
    (envGet finalEnv (lower clsHost.1 ++ "_get_uuid") =
        some (wrapGuards clsHost.2 .cheat) ∧
      envGet finalEnv (lower clsHost.1 ++ "_get_by_uuid") =
        some (.guarded .session_required .cheat)) :=
  ⟨by decide, claim1_amended_identity_shortcuts clsHost (by decide)⟩

/-- C9 counterexample: the composed `host_cpu_get_uuid` entry is the
identity lambda behind the Host_CPU guard chain; with an active session,
the unregistered cpu `"c0"` gets the host-cpu-invalid failure, not
`success "c0"` — the guard does consult the registry — while the
overwritten hand-written handler would have answered the registry uuid
`"u-c1"` where the composed operation answers `"c1"` itself. -/
theorem claim9_counterexample :
    envGet finalEnv "host_cpu_get_uuid" =
      some (.guarded .session_required (.guarded .valid_host_cpu .cheat)) ∧
    HandlerExpr.denote demoCollabCpu noImpl
        (.guarded .session_required (.guarded .valid_host_cpu .cheat))
        (.str "s") (.str "c0") [] =
      ⟨"Failure", none, some XEND_ERROR_HOST_CPU_INVALID⟩ ∧
    (⟨"Failure", none, some XEND_ERROR_HOST_CPU_INVALID⟩ : XenResponse) ≠
      xen_api_success (.str "c0") ∧
    host_cpu_get_uuid demoCollabCpu.node (.str "s") (.str "c1") [] =
      xen_api_success (.str "u-c1") ∧
    HandlerExpr.denote demoCollabCpu noImpl
        (.guarded .session_required (.guarded .valid_host_cpu .cheat))
        (.str "s") (.str "c1") [] = xen_api_success (.str "c1") ∧
    xen_api_success (.str "c1") ≠ xen_api_success (.str "u-c1") := by
  refine ⟨?_, by decide, by decide, by decide, by decide, by decide⟩
  rw [finalEnv, xendInit_get_ro_HostCpu initialEnv _ (by decide) (by decide) (by decide) (by decide) (by decide) (by decide) (by decide) (by decide) (by decide),
    cheatPass_get_mem _ _ (by decide)]
  rfl

/-- C9 amended: construction overwrites the hand-written
`host_cpu_get_uuid` with the identity lambda and wraps it in the Host_CPU
guard chain; for an active session and a cpu reference present in the
node registry it returns `success reference` itself, for any
interpretation of the hand-written methods — the registry uuid lookup is
never consulted, though the guard still consults the registry's validity
check. -/
theorem claim9_amended_host_cpu_get_uuid (col : Collab)
    (impl : String → Handler) (sess : PyVal) (s : String)
    (args : List PyVal) (hsess : col.auth.is_session_valid sess = true)
    (hcpu : col.node.is_valid_cpu s = true) :
    envGet finalEnv "host_cpu_get_uuid" =
      some (.guarded .session_required (.guarded .valid_host_cpu .cheat)) ∧
    HandlerExpr.denote col impl
        (.guarded .session_required (.guarded .valid_host_cpu .cheat))
        sess (.str s) args = xen_api_success (.str s) := by
  constructor
  · rw [finalEnv, xendInit_get_ro_HostCpu initialEnv _ (by decide) (by decide) (by decide) (by decide) (by decide) (by decide) (by decide) (by decide) (by decide),
      cheatPass_get_mem _ _ (by decide)]
    rfl
  · simp [HandlerExpr.denote, guardApply, session_required, valid_host_cpu,
      PyVal.isStr, PyVal.asStr, hsess, hcpu]

/-- C9 amended witness: the registered cpu `"c1"` with the active session
`"s"` yields `success "c1"`. -/
theorem claim9_amended_witness :
    demoCollabCpu.auth.is_session_valid (PyVal.str "s") = true ∧
    demoCollabCpu.node.is_valid_cpu "c1" = true ∧
    HandlerExpr.denote demoCollabCpu noImpl
        (.guarded .session_required (.guarded .valid_host_cpu .cheat))
        (.str "s") (.str "c1") [] = xen_api_success (.str "c1") :=
  ⟨by decide, by decide,
   (claim9_amended_host_cpu_get_uuid demoCollabCpu noImpl (.str "s") "c1"
      [] (by decide) (by decide)).2⟩

/-- C10: construction is not idempotent: one `__init__` wraps the
declared Host attribute getter `host_get_name_label` in exactly one copy
of the Host guard chain, while running `__init__` a second time over the
resulting class attribute table wraps the already-guarded handler in a
second copy of the chain, so the table after two constructions differs
from the table after one. -/
theorem claim10_double_construction :
    envGet (xendInit initialEnv) "host_get_name_label" =
      some (.guarded .session_required (.guarded .valid_host
        (.base "host_get_name_label"))) ∧
    envGet (xendInit (xendInit initialEnv)) "host_get_name_label" =
      some (.guarded .session_required (.guarded .valid_host
        (.guarded .session_required (.guarded .valid_host
          (.base "host_get_name_label"))))) ∧
    guardChain (.guarded .session_required (.guarded .valid_host
        (.base "host_get_name_label"))) = [.session_required, .valid_host] ∧
    guardChain (.guarded .session_required (.guarded .valid_host
        (.guarded .session_required (.guarded .valid_host
          (.base "host_get_name_label"))))) =
      [.session_required, .valid_host, .session_required, .valid_host] ∧
    xendInit (xendInit initialEnv) ≠ xendInit initialEnv := by
  have t1 : envGet (xendInit initialEnv) "host_get_name_label" =
      some (.guarded .session_required (.guarded .valid_host
        (.base "host_get_name_label"))) := by
    rw [xendInit_get_ro_Host initialEnv _ (by decide) (by decide) (by decide) (by decide) (by decide) (by decide) (by decide) (by decide) (by decide),
      cheatPass_get_not_mem _ _ (by decide), initialEnv_get_mem _ (by decide)]
    rfl
  have t2 : envGet (xendInit (xendInit initialEnv)) "host_get_name_label" =
      some (.guarded .session_required (.guarded .valid_host
        (.guarded .session_required (.guarded .valid_host
          (.base "host_get_name_label"))))) := by
    rw [xendInit_get_ro_Host (xendInit initialEnv) _ (by decide) (by decide) (by decide) (by decide) (by decide) (by decide) (by decide) (by decide) (by decide),
      cheatPass_get_not_mem _ _ (by decide), t1]
    rfl
  refine ⟨t1, t2, rfl, rfl, ?_⟩
  intro heq
  rw [heq, t1] at t2
  exact absurd t2 (by decide)

/-- Helper trace: the registered Host class function `create` carries
exactly the session guard. -/
theorem trace_host_create : envGet finalEnv "host_create" =
    some (.guarded .session_required (.base "host_create")) := by
  rw [finalEnv, xendInit_get_func_Host initialEnv _ (by decide) (by decide) (by decide) (by decide) (by decide) (by decide) (by decide) (by decide) (by decide),
    cheatPass_get_not_mem _ _ (by decide), initialEnv_get_mem _ (by decide)]
  rfl

set_option maxRecDepth 8000 in
/-- C4: every class-level function the pass registers — the class's own
funcs plus the base funcs `create`, `get_by_uuid`, `get_all` — sits behind
exactly one guard, the session guard, with no reference guard, for every
declared class. -/
theorem claim4_class_functions_session_guard_only :
    ∀ c ∈ classes, ∀ n ∈ funcNamesOf c.1, ∀ h : HandlerExpr,
      envGet finalEnv n = some h → guardChain h = [.session_required] := by
  intro c hc
  simp only [classes, List.mem_cons, List.not_mem_nil, or_false] at hc
  rcases hc with rfl | rfl | rfl | rfl | rfl | rfl
  · intro n hn
    rw [show funcNamesOf clsSession.1 = ["session_create", "session_get_by_uuid", "session_get_all"] from by decide] at hn
    simp only [List.mem_cons, List.not_mem_nil, or_false] at hn
    rcases hn with rfl | rfl | rfl
    · intro h heq
      have t : envGet finalEnv "session_create" = none := by
        rw [finalEnv, xendInit_get_func_Session initialEnv _ (by decide) (by decide) (by decide) (by decide) (by decide) (by decide) (by decide) (by decide) (by decide),
          cheatPass_get_not_mem _ _ (by decide),
          initialEnv_get_not_mem _ (by decide)]
        rfl
      exact Option.noConfusion (t.symm.trans heq)
    · intro h heq
      have t : envGet finalEnv "session_get_by_uuid" =
          some (.guarded .session_required .cheat) := by
        rw [finalEnv, xendInit_get_func_Session initialEnv _ (by decide) (by decide) (by decide) (by decide) (by decide) (by decide) (by decide) (by decide) (by decide),
          cheatPass_get_mem _ _ (by decide)]
        rfl
      rw [← Option.some.inj (t.symm.trans heq)]
      rfl
    · intro h heq
      have t : envGet finalEnv "session_get_all" = none := by
        rw [finalEnv, xendInit_get_func_Session initialEnv _ (by decide) (by decide) (by decide) (by decide) (by decide) (by decide) (by decide) (by decide) (by decide),
          cheatPass_get_not_mem _ _ (by decide),
          initialEnv_get_not_mem _ (by decide)]
        rfl
      exact Option.noConfusion (t.symm.trans heq)
  · intro n hn
    rw [show funcNamesOf clsHost.1 = ["host_get_by_label", "host_create", "host_get_by_uuid", "host_get_all"] from by decide] at hn
    simp only [List.mem_cons, List.not_mem_nil, or_false] at hn
    rcases hn with rfl | rfl | rfl | rfl
    · intro h heq
      have t : envGet finalEnv "host_get_by_label" = none := by
        rw [finalEnv, xendInit_get_func_Host initialEnv _ (by decide) (by decide) (by decide) (by decide) (by decide) (by decide) (by decide) (by decide) (by decide),
          cheatPass_get_not_mem _ _ (by decide),
          initialEnv_get_not_mem _ (by decide)]
        rfl
      exact Option.noConfusion (t.symm.trans heq)
    · intro h heq
      have t : envGet finalEnv "host_create" =
          some (.guarded .session_required (.base "host_create")) := by
        rw [finalEnv, xendInit_get_func_Host initialEnv _ (by decide) (by decide) (by decide) (by decide) (by decide) (by decide) (by decide) (by decide) (by decide),
          cheatPass_get_not_mem _ _ (by decide),
          initialEnv_get_mem _ (by decide)]
        rfl
      rw [← Option.some.inj (t.symm.trans heq)]
      rfl
    · intro h heq
      have t : envGet finalEnv "host_get_by_uuid" =
          some (.guarded .session_required .cheat) := by
        rw [finalEnv, xendInit_get_func_Host initialEnv _ (by decide) (by decide) (by decide) (by decide) (by decide) (by decide) (by decide) (by decide) (by decide),
          cheatPass_get_mem _ _ (by decide)]
        rfl
      rw [← Option.some.inj (t.symm.trans heq)]
      rfl
    · intro h heq
      have t : envGet finalEnv "host_get_all" =
          some (.guarded .session_required (.base "host_get_all")) := by
        rw [finalEnv, xendInit_get_func_Host initialEnv _ (by decide) (by decide) (by decide) (by decide) (by decide) (by decide) (by decide) (by decide) (by decide),
          cheatPass_get_not_mem _ _ (by decide),
          initialEnv_get_mem _ (by decide)]
        rfl
      rw [← Option.some.inj (t.symm.trans heq)]
      rfl
  · intro n hn
    rw [show funcNamesOf clsHostCpu.1 = ["host_cpu_create", "host_cpu_get_by_uuid", "host_cpu_get_all"] from by decide] at hn
    simp only [List.mem_cons, List.not_mem_nil, or_false] at hn
    rcases hn with rfl | rfl | rfl
    · intro h heq
      have t : envGet finalEnv "host_cpu_create" =
          some (.guarded .session_required (.base "host_cpu_create")) := by
        rw [finalEnv, xendInit_get_func_HostCpu initialEnv _ (by decide) (by decide) (by decide) (by decide) (by decide) (by decide) (by decide) (by decide) (by decide),
          cheatPass_get_not_mem _ _ (by decide),
          initialEnv_get_mem _ (by decide)]
        rfl
      rw [← Option.some.inj (t.symm.trans heq)]
      rfl
    · intro h heq
      have t : envGet finalEnv "host_cpu_get_by_uuid" =
          some (.guarded .session_required .cheat) := by
        rw [finalEnv, xendInit_get_func_HostCpu initialEnv _ (by decide) (by decide) (by decide) (by decide) (by decide) (by decide) (by decide) (by decide) (by decide),
          cheatPass_get_mem _ _ (by decide)]
        rfl
      rw [← Option.some.inj (t.symm.trans heq)]
      rfl
    · intro h heq
      have t : envGet finalEnv "host_cpu_get_all" =
          some (.guarded .session_required (.base "host_cpu_get_all")) := by
        rw [finalEnv, xendInit_get_func_HostCpu initialEnv _ (by decide) (by decide) (by decide) (by decide) (by decide) (by decide) (by decide) (by decide) (by decide),
          cheatPass_get_not_mem _ _ (by decide),
          initialEnv_get_mem _ (by decide)]
        rfl
      rw [← Option.some.inj (t.symm.trans heq)]
      rfl
  · intro n hn
    rw [show funcNamesOf clsVM.1 = ["vm_get_by_label", "vm_create", "vm_get_by_uuid", "vm_get_all"] from by decide] at hn
    simp only [List.mem_cons, List.not_mem_nil, or_false] at hn
    rcases hn with rfl | rfl | rfl | rfl
    · intro h heq
      have t : envGet finalEnv "vm_get_by_label" =
          some (.guarded .session_required (.base "vm_get_by_label")) := by
        rw [finalEnv, xendInit_get_func_VM initialEnv _ (by decide) (by decide) (by decide) (by decide) (by decide) (by decide) (by decide) (by decide) (by decide),
          cheatPass_get_not_mem _ _ (by decide),
          initialEnv_get_mem _ (by decide)]
        rfl
      rw [← Option.some.inj (t.symm.trans heq)]
      rfl
    · intro h heq
      have t : envGet finalEnv "vm_create" =
          some (.guarded .session_required (.base "vm_create")) := by
        rw [finalEnv, xendInit_get_func_VM initialEnv _ (by decide) (by decide) (by decide) (by decide) (by decide) (by decide) (by decide) (by decide) (by decide),
          cheatPass_get_not_mem _ _ (by decide),
          initialEnv_get_mem _ (by decide)]
        rfl
      rw [← Option.some.inj (t.symm.trans heq)]
      rfl
    · intro h heq
      have t : envGet finalEnv "vm_get_by_uuid" =
          some (.guarded .session_required .cheat) := by
        rw [finalEnv, xendInit_get_func_VM initialEnv _ (by decide) (by decide) (by decide) (by decide) (by decide) (by decide) (by decide) (by decide) (by decide),
          cheatPass_get_mem _ _ (by decide)]
        rfl
      rw [← Option.some.inj (t.symm.trans heq)]
      rfl
    · intro h heq
      have t : envGet finalEnv "vm_get_all" =
          some (.guarded .session_required (.base "vm_get_all")) := by
        rw [finalEnv, xendInit_get_func_VM initialEnv _ (by decide) (by decide) (by decide) (by decide) (by decide) (by decide) (by decide) (by decide) (by decide),
          cheatPass_get_not_mem _ _ (by decide),
          initialEnv_get_mem _ (by decide)]
        rfl
      rw [← Option.some.inj (t.symm.trans heq)]
      rfl
  · intro n hn
    rw [show funcNamesOf clsVBD.1 = ["vbd_create", "vbd_get_by_uuid", "vbd_get_all"] from by decide] at hn
    simp only [List.mem_cons, List.not_mem_nil, or_false] at hn
    rcases hn with rfl | rfl | rfl
    · intro h heq
      have t : envGet finalEnv "vbd_create" =
          some (.guarded .session_required (.base "vbd_create")) := by
        rw [finalEnv, xendInit_get_func_VBD initialEnv _ (by decide) (by decide) (by decide) (by decide) (by decide) (by decide) (by decide) (by decide) (by decide),
          cheatPass_get_not_mem _ _ (by decide),
          initialEnv_get_mem _ (by decide)]
        rfl
      rw [← Option.some.inj (t.symm.trans heq)]
      rfl
    · intro h heq
      have t : envGet finalEnv "vbd_get_by_uuid" =
          some (.guarded .session_required .cheat) := by
        rw [finalEnv, xendInit_get_func_VBD initialEnv _ (by decide) (by decide) (by decide) (by decide) (by decide) (by decide) (by decide) (by decide) (by decide),
          cheatPass_get_mem _ _ (by decide)]
        rfl
      rw [← Option.some.inj (t.symm.trans heq)]
      rfl
    · intro h heq
      have t : envGet finalEnv "vbd_get_all" = none := by
        rw [finalEnv, xendInit_get_func_VBD initialEnv _ (by decide) (by decide) (by decide) (by decide) (by decide) (by decide) (by decide) (by decide) (by decide),
          cheatPass_get_not_mem _ _ (by decide),
          initialEnv_get_not_mem _ (by decide)]
        rfl
      exact Option.noConfusion (t.symm.trans heq)
  · intro n hn
    rw [show funcNamesOf clsVIF.1 = ["vif_create", "vif_get_by_uuid", "vif_get_all"] from by decide] at hn
    simp only [List.mem_cons, List.not_mem_nil, or_false] at hn
    rcases hn with rfl | rfl | rfl
    · intro h heq
      have t : envGet finalEnv "vif_create" =
          some (.guarded .session_required (.base "vif_create")) := by
        rw [finalEnv, xendInit_get_func_VIF initialEnv _ (by decide) (by decide) (by decide) (by decide) (by decide) (by decide) (by decide) (by decide) (by decide),
          cheatPass_get_not_mem _ _ (by decide),
          initialEnv_get_mem _ (by decide)]
        rfl
      rw [← Option.some.inj (t.symm.trans heq)]
      rfl
    · intro h heq
      have t : envGet finalEnv "vif_get_by_uuid" =
          some (.guarded .session_required .cheat) := by
        rw [finalEnv, xendInit_get_func_VIF initialEnv _ (by decide) (by decide) (by decide) (by decide) (by decide) (by decide) (by decide) (by decide) (by decide),
          cheatPass_get_mem _ _ (by decide)]
        rfl
      rw [← Option.some.inj (t.symm.trans heq)]
      rfl
    · intro h heq
      have t : envGet finalEnv "vif_get_all" = none := by
        rw [finalEnv, xendInit_get_func_VIF initialEnv _ (by decide) (by decide) (by decide) (by decide) (by decide) (by decide) (by decide) (by decide) (by decide),
          cheatPass_get_not_mem _ _ (by decide),
          initialEnv_get_not_mem _ (by decide)]
        rfl
      exact Option.noConfusion (t.symm.trans heq)

/-- C4 witness: the Host class function `create` is registered with guard
chain exactly the session guard. -/
theorem claim4_witness :
    clsHost ∈ classes ∧ "host_create" ∈ funcNamesOf clsHost.1 ∧
    envGet finalEnv "host_create" =
      some (.guarded .session_required (.base "host_create")) ∧
    guardChain (.guarded .session_required (.base "host_create")) =
      [.session_required] :=
  ⟨by decide, by decide, trace_host_create,
   claim4_class_functions_session_guard_only clsHost (by decide)
     "host_create" (by decide) _ trace_host_create⟩
